import Mathlib

/-!
Shallow embedding of the credit-scoring core (financial calculator,
default-probability adapter and decision engine) of the repository, with
theorems settling the frozen claims about it.

Numeric model: the Python code computes with double-precision floats; the
embedding uses exact rationals `ℚ`, and `float(..)` infinity (returned by
`taux_endettement` on non-positive income) is modelled by the top element of
`WithTop ℚ`.  Alert and strength messages are Python f-strings whose
interpolated numbers are presentation only; the embedding keeps their rule
identity and severity as inductive tags.
-/

/-- Extended rationals: `⊤` plays the role of the float `inf` returned by
`taux_endettement` when the monthly income is not positive. -/
abbrev ERat := WithTop ℚ

namespace CONFIG

/-- CONFIG MAX_DEBT_RATIO = 0.35. -/
def maxDebtRatio : ℚ := 35 / 100

/-- CONFIG MIN_RESTE_A_VIVRE = 700. -/
def minResteAVivre : ℚ := 700

/-- CONFIG MIN_RESTE_A_VIVRE_ENFANT = 300. -/
def minResteAVivreEnfant : ℚ := 300

/-- CONFIG MAX_AGE_FIN_PRET = 75. -/
def maxAgeFinPret : ℚ := 75

/-- CONFIG MIN_AGE = 18. -/
def minAge : ℚ := 18

/-- CONFIG TAUX_IMMO = 0.035. -/
def tauxImmo : ℚ := 35 / 1000

/-- CONFIG TAUX_CONSO = 0.065. -/
def tauxConso : ℚ := 65 / 1000

/-- CONFIG APPORT_MIN_RECOMMANDE = 0.10. -/
def apportMinRecommande : ℚ := 1 / 10

/-- CONFIG SEUIL_IMMO = 75000. -/
def seuilImmo : ℚ := 75000

end CONFIG

/-- Credit types returned by `CalculateurCredit.type_credit`
("immobilier" / "consommation" in the source). -/
inductive TypeCredit
  | immobilier
  | consommation
deriving DecidableEq, Repr

namespace CalculateurCredit

/-- `CalculateurCredit.mensualite`: monthly payment of a loan.  Zero annual
rate degrades to linear amortization `capital / (duree * 12)`. -/
def mensualite (capital taux_annuel : ℚ) (duree_annees : ℕ) : ℚ :=
  if taux_annuel = 0 then capital / ((duree_annees : ℚ) * 12)
  else
    let taux_mensuel := taux_annuel / 12
    let nb_mois := duree_annees * 12
    capital * (taux_mensuel * (1 + taux_mensuel) ^ nb_mois) /
      ((1 + taux_mensuel) ^ nb_mois - 1)

/-- `CalculateurCredit.cout_total`: total cost and interest of the loan. -/
def cout_total (capital taux_annuel : ℚ) (duree_annees : ℕ) : ℚ × ℚ :=
  let mens := mensualite capital taux_annuel duree_annees
  let total := mens * (duree_annees : ℚ) * 12
  (total, total - capital)

/-- `CalculateurCredit.taux_endettement`: debt-to-income ratio; the source
returns the float infinity when the monthly income is `≤ 0`, modelled by `⊤`. -/
def taux_endettement (mensu revenu_mensuel : ℚ) : ERat :=
  if revenu_mensuel ≤ 0 then ⊤ else ((mensu / revenu_mensuel : ℚ) : ERat)

/-- `CalculateurCredit.capacite_emprunt`: maximum borrowing capacity at the
configured maximum debt ratio, given existing monthly charges. -/
def capacite_emprunt (revenu_mensuel taux_annuel : ℚ) (duree_annees : ℕ)
    (charges : ℚ) : ℚ :=
  let mensualite_max := revenu_mensuel * CONFIG.maxDebtRatio - charges
  if mensualite_max ≤ 0 then 0
  else
    let taux_mensuel := taux_annuel / 12
    let nb_mois := duree_annees * 12
    if taux_annuel = 0 then mensualite_max * ((nb_mois : ℚ))
    else
      mensualite_max * ((1 + taux_mensuel) ^ nb_mois - 1) /
        (taux_mensuel * (1 + taux_mensuel) ^ nb_mois)

/-- `CalculateurCredit.type_credit`: real-estate iff the principal reaches the
configured threshold. -/
def type_credit (montant : ℚ) : TypeCredit :=
  if montant ≥ CONFIG.seuilImmo then .immobilier else .consommation

/-- `CalculateurCredit.taux_interet`: interest rate by credit type. -/
def taux_interet (montant : ℚ) : ℚ :=
  if montant ≥ CONFIG.seuilImmo then CONFIG.tauxImmo else CONFIG.tauxConso

/-- One yearly row of the amortization table. -/
structure LigneAmortissement where
  annee : ℕ
  capital_rembourse : ℚ
  interets : ℚ
  solde_restant : ℚ
deriving DecidableEq, Repr

/-- The inner month loop of `tableau_amortissement`, running `k` months on the
state (balance, interest accumulated this year, principal repaid this year).
The source breaks out of the loop when the balance is `≤ 0`; here each
remaining month just leaves the state unchanged, which yields the same final
state because the guard keeps holding. -/
def runMois (mensu taux_mensuel : ℚ) : ℕ → ℚ × ℚ × ℚ → ℚ × ℚ × ℚ
  | 0, st => st
  | k + 1, (solde, interets_annee, capital_rembourse) =>
    if solde ≤ 0 then (solde, interets_annee, capital_rembourse)
    else
      let interet := solde * taux_mensuel
      let principal := mensu - interet
      runMois mensu taux_mensuel k
        (solde - principal, interets_annee + interet, capital_rembourse + principal)

/-- The outer year loop of `tableau_amortissement`: `k` remaining years,
current year number, running balance.  Note the source stores
`max(0, solde)` in the row but carries the raw balance into the next year. -/
def tableauAux (mensu taux_mensuel : ℚ) : ℕ → ℕ → ℚ → List LigneAmortissement
  | 0, _, _ => []
  | k + 1, annee, solde =>
    let st := runMois mensu taux_mensuel 12 (solde, 0, 0)
    ⟨annee, st.2.2, st.2.1, max 0 st.1⟩ ::
      tableauAux mensu taux_mensuel k (annee + 1) st.1

/-- `CalculateurCredit.tableau_amortissement`: yearly amortization table. -/
def tableau_amortissement (capital taux_annuel : ℚ)
    (duree_annees : ℕ) : List LigneAmortissement :=
  tableauAux (mensualite capital taux_annuel duree_annees) (taux_annuel / 12)
    duree_annees 1 capital

end CalculateurCredit

/-! ## Decision engine (`MoteurDecision`) -/

/-- An application record (`dossier`): the eight named numeric fields of the
data model.  The source reads them from a dict with defaults for missing keys;
the embedding takes a fully populated record. -/
structure Dossier where
  revenu_annuel : ℚ
  montant_credit : ℚ
  duree_annees : ℕ
  age : ℚ
  anciennete_emploi : ℚ
  nb_enfants : ℕ
  charges_existantes : ℚ
  apport : ℚ
deriving DecidableEq, Repr

/-- Alert severity, the first component of each alert pair. -/
inductive Severite
  | warning
  | danger
deriving DecidableEq, Repr

/-- Identity of an alert message.  The source builds f-strings; the embedding
keeps the rule identity, dropping the interpolated presentation text. -/
inductive MsgAlerte
  | tauxEndettementCritique
  | tauxEndettementEleve
  | resteAVivreInsuffisant
  | resteAVivreLimite
  | ageInsuffisant
  | ageFinPretEleve
  | ancienneteFaible
  | apportFaible
deriving DecidableEq, Repr

/-- Identity of a strength message (`points_forts`). -/
inductive PointFort
  | excellentTauxEndettement
  | bonTauxEndettement
  | excellentResteAVivre
  | excellenteStabilite
  | bonneAnciennete
  | apportConsequent
deriving DecidableEq, Repr

/-- The three hard-refusal reasons of the decision block. -/
inductive RaisonRefus
  | tauxEndettementExcessif
  | resteAVivreInsuffisant
  | ageMinimumNonAtteint
deriving DecidableEq, Repr

/-- The three possible decisions. -/
inductive Decision
  | accepte
  | accepteSousConditions
  | refuse
deriving DecidableEq, Repr

/-- The feature row built by `MoteurDecision._score_ml` before invoking the
classifier.  Field names transliterate the Python feature keys; fields guarded
by `if revenu > 0` in the source (otherwise NaN) are `Option ℚ`.  All other
features of the configured feature list stay at the missing-value marker and
carry no information, so they are not represented. -/
structure FeatureRow where
  amtIncomeTotal : ℚ
  amtCredit : ℚ
  ageYears : ℚ
  employedYears : ℚ
  cntChildren : ℚ
  cntFamMembers : ℚ
  amtAnnuity : ℚ
  creditIncomeRatioF : Option ℚ
  annuityIncomeRatioF : Option ℚ
  incomeMonthly : ℚ
  debtRatioF : Option ℚ
  resteAVivreF : ℚ
  dureePretYears : ℚ
  ageFinPret : ℚ
  creditTermMonths : ℚ
deriving DecidableEq, Repr

namespace MoteurDecision

open CalculateurCredit CONFIG

/-- The feature-vector construction of `_score_ml` (lines that fill `row`). -/
def featureRow (dossier : Dossier) (mensu : ℚ) (duree : ℕ) : FeatureRow :=
  let revenu := dossier.revenu_annuel
  let montant := dossier.montant_credit
  { amtIncomeTotal := revenu
    amtCredit := montant
    ageYears := dossier.age
    employedYears := dossier.anciennete_emploi
    cntChildren := (dossier.nb_enfants : ℚ)
    cntFamMembers := (dossier.nb_enfants : ℚ) + 1
    amtAnnuity := mensu * 12
    creditIncomeRatioF := if revenu > 0 then some (montant / revenu) else none
    annuityIncomeRatioF := if revenu > 0 then some (mensu * 12 / revenu) else none
    incomeMonthly := revenu / 12
    debtRatioF := if revenu > 0 then some (mensu / (revenu / 12)) else none
    resteAVivreF := revenu / 12 - mensu
    dureePretYears := (duree : ℚ)
    ageFinPret := dossier.age + (duree : ℚ)
    creditTermMonths := (duree : ℚ) * 12 }

/-- `MoteurDecision._score_ml`: the classifier is abstracted as a function
from the feature row to `Option ℚ`; `none` stands for any failure of the
`predict_proba` call (missing model, malformed input, runtime exception), in
which case the neutral probability 1/2 is returned. -/
def score_ml (model : FeatureRow → Option ℚ) (dossier : Dossier)
    (mensu : ℚ) (duree : ℕ) : ℚ :=
  (model (featureRow dossier mensu duree)).getD (1 / 2)

/-- Outcome of one business rule: score delta, alerts appended, strengths
appended, in the order the source appends them. -/
structure ResultatRegle where
  delta : ℚ
  alertes : List (Severite × MsgAlerte)
  points_forts : List PointFort
deriving DecidableEq, Repr

/-- Rule 1 of `analyser`: debt ratio. -/
def regle1 (te : ERat) : ResultatRegle :=
  if te > ((1/2 : ℚ) : ERat) then
    ⟨-40, [(.danger, .tauxEndettementCritique)], []⟩
  else if te > (( maxDebtRatio : ℚ) : ERat) then
    ⟨-25, [(.warning, .tauxEndettementEleve)], []⟩
  else if te ≤ ((1/4 : ℚ) : ERat) then
    ⟨10, [], [.excellentTauxEndettement]⟩
  else if te ≤ ((33/100 : ℚ) : ERat) then
    ⟨0, [], [.bonTauxEndettement]⟩
  else ⟨0, [], []⟩

/-- Rule 2 of `analyser`: disposable income against the per-household
threshold `700 + 300 × children`. -/
def regle2 (reste_a_vivre : ℚ) (nb_enfants : ℕ) : ResultatRegle :=
  let seuil_rav := minResteAVivre + (nb_enfants : ℚ) * minResteAVivreEnfant
  if reste_a_vivre < 400 then
    ⟨-35, [(.danger, .resteAVivreInsuffisant)], []⟩
  else if reste_a_vivre < seuil_rav then
    ⟨-20, [(.warning, .resteAVivreLimite)], []⟩
  else if reste_a_vivre > seuil_rav * 2 then
    ⟨10, [], [.excellentResteAVivre]⟩
  else ⟨0, [], []⟩

/-- Rule 3 of `analyser`: two independent age checks (minimum age, age at the
end of the loan); both may fire on the same application. -/
def regle3 (age age_fin_pret : ℚ) : ResultatRegle :=
  let r1 : ResultatRegle :=
    if age < minAge then ⟨-50, [(.danger, .ageInsuffisant)], []⟩ else ⟨0, [], []⟩
  let r2 : ResultatRegle :=
    if age_fin_pret > maxAgeFinPret then
      ⟨-15, [(.warning, .ageFinPretEleve)], []⟩
    else ⟨0, [], []⟩
  ⟨r1.delta + r2.delta, r1.alertes ++ r2.alertes, []⟩

/-- Rule 4 of `analyser`: employment tenure. -/
def regle4 (anciennete : ℚ) : ResultatRegle :=
  if anciennete < 1/2 then ⟨-15, [(.warning, .ancienneteFaible)], []⟩
  else if anciennete ≥ 5 then ⟨10, [], [.excellenteStabilite]⟩
  else if anciennete ≥ 2 then ⟨0, [], [.bonneAnciennete]⟩
  else ⟨0, [], []⟩

/-- Rule 5 of `analyser`: down payment, real-estate credit only. -/
def regle5 (tc : TypeCredit) (montant apport : ℚ) : ResultatRegle :=
  if tc = .immobilier then
    let taux_apport := if montant + apport > 0 then apport / (montant + apport) else 0
    if taux_apport ≥ 1/5 then ⟨10, [], [.apportConsequent]⟩
    else if taux_apport < apportMinRecommande then
      ⟨-10, [(.warning, .apportFaible)], []⟩
    else ⟨0, [], []⟩
  else ⟨0, [], []⟩

/-- The `details` sub-dictionary of the decision payload. -/
structure Details where
  type_credit : TypeCredit
  taux : ℚ
  mensualite : ℚ
  taux_endettement : ERat
  reste_a_vivre : ℚ
  cout_total : ℚ
  interets : ℚ
  capacite_max : ℚ
  age_fin_pret : ℚ
deriving DecidableEq, Repr

/-- The decision payload returned by `analyser`. -/
structure Resultat where
  decision : Decision
  score_final : ℚ
  score_metier : ℚ
  score_ml : ℚ
  proba_defaut : ℚ
  alertes : List (Severite × MsgAlerte)
  points_forts : List PointFort
  refus_auto : Bool
  raison_refus : Option RaisonRefus
  details : Details
deriving DecidableEq, Repr

/-- `MoteurDecision.analyser`: the full analysis of one application.  The
business score starts at 100, the five rules contribute their deltas and
findings in source order, the score is clamped to [0,100] before blending
with the ML score, and the hard-refusal block short-circuits the decision. -/
def analyser (model : FeatureRow → Option ℚ) (dossier : Dossier) : Resultat :=
  let revenu_mensuel := dossier.revenu_annuel / 12
  let montant := dossier.montant_credit
  let duree := dossier.duree_annees
  let age := dossier.age
  let charges := dossier.charges_existantes
  let tc := type_credit montant
  let taux := taux_interet montant
  let mensu := mensualite montant taux duree
  let mensualite_totale := mensu + charges
  let te := taux_endettement mensualite_totale revenu_mensuel
  let reste_a_vivre := revenu_mensuel - mensualite_totale
  let ct := cout_total montant taux duree
  let capacite_max := capacite_emprunt revenu_mensuel taux duree charges
  let age_fin_pret := age + (duree : ℚ)
  let r1 := regle1 te
  let r2 := regle2 reste_a_vivre dossier.nb_enfants
  let r3 := regle3 age age_fin_pret
  let r4 := regle4 dossier.anciennete_emploi
  let r5 := regle5 tc montant dossier.apport
  let proba_defaut := score_ml model dossier mensu duree
  let scoreML := (1 - proba_defaut) * 100
  let score_metier :=
    max 0 (min 100 (100 + r1.delta + r2.delta + r3.delta + r4.delta + r5.delta))
  let score_final := 6/10 * score_metier + 4/10 * scoreML
  let refus_auto : Bool :=
    if te > ((1/2 : ℚ) : ERat) then true
    else if reste_a_vivre < 400 then true
    else if age < minAge then true
    else false
  let raison_refus : Option RaisonRefus :=
    if te > ((1/2 : ℚ) : ERat) then some .tauxEndettementExcessif
    else if reste_a_vivre < 400 then some .resteAVivreInsuffisant
    else if age < minAge then some .ageMinimumNonAtteint
    else none
  let decision : Decision :=
    if refus_auto then .refuse
    else if score_final ≥ 70 then .accepte
    else if score_final ≥ 50 then .accepteSousConditions
    else .refuse
  { decision := decision
    score_final := score_final
    score_metier := score_metier
    score_ml := scoreML
    proba_defaut := proba_defaut
    alertes := r1.alertes ++ r2.alertes ++ r3.alertes ++ r4.alertes ++ r5.alertes
    points_forts := r1.points_forts ++ r2.points_forts ++ r3.points_forts ++
      r4.points_forts ++ r5.points_forts
    refus_auto := refus_auto
    raison_refus := raison_refus
    details :=
      { type_credit := tc
        taux := taux
        mensualite := mensu
        taux_endettement := te
        reste_a_vivre := reste_a_vivre
        cout_total := ct.1
        interets := ct.2
        capacite_max := capacite_max
        age_fin_pret := age_fin_pret } }

end MoteurDecision

/-! ## Analysis helpers

Mathematical companions of the loops of `tableau_amortissement`, used to
reason about the month-by-month recurrence, plus concrete inputs used to
instantiate hypotheses of theorems. -/

namespace CalculateurCredit

/-- The pure monthly balance recurrence (no stopping guard): one month turns
the balance `s` into `s * (1 + t) - m`. -/
def soldePure (m t : ℚ) : ℕ → ℚ → ℚ
  | 0, s => s
  | k + 1, s => soldePure m t k (s * (1 + t) - m)

/-- Balance carried by the outer year loop of `tableau_amortissement` after
`k` years. -/
def soldeApresAnnees (m t : ℚ) : ℕ → ℚ → ℚ
  | 0, s => s
  | k + 1, s => soldeApresAnnees m t k ((runMois m t 12 (s, 0, 0)).1)

/-- Present value of an annuity of 1 per month over `nb` months at monthly
rate `t`: the sum of the discount factors.  The monthly payment of a loan is
the principal divided by this factor. -/
def facteurAnnuite (t : ℚ) (nb : ℕ) : ℚ :=
  (Finset.range nb).sum fun k => (1 / (1 + t)) ^ (k + 1)

/-- Loan payment of an application as computed inside `analyser`: principal,
rate from the credit type, term. -/
def mensualiteDossier (d : Dossier) : ℚ :=
  mensualite d.montant_credit (taux_interet d.montant_credit) d.duree_annees

end CalculateurCredit

/-! ## Concrete inputs for witnesses -/

/-- A classifier stub whose probability-prediction call always fails. -/
def modeleEchec : FeatureRow → Option ℚ := fun _ => none

/-- A classifier stub that always predicts default probability 1/10. -/
def modeleFixe : FeatureRow → Option ℚ := fun _ => some (1 / 10)

/-- Application with no income: the debt ratio is infinite. -/
def dossierSansRevenu : Dossier :=
  { revenu_annuel := 0, montant_credit := 0, duree_annees := 1, age := 30,
    anciennete_emploi := 0, nb_enfants := 0, charges_existantes := 0, apport := 0 }

/-- Application with comfortable income, no requested principal, moderate
charges: no hard-refusal condition holds. -/
def dossierSain : Dossier :=
  { revenu_annuel := 12000, montant_credit := 0, duree_annees := 1, age := 30,
    anciennete_emploi := 3, nb_enfants := 0, charges_existantes := 200, apport := 0 }

/-- Application of a minor asking for a very long loan: both age checks
fire. -/
def dossierJeune : Dossier :=
  { revenu_annuel := 12000, montant_credit := 0, duree_annees := 70, age := 10,
    anciennete_emploi := 0, nb_enfants := 0, charges_existantes := 0, apport := 0 }

/-- Application with positive income and positive existing charges. -/
def dossierAvecCharges : Dossier :=
  { revenu_annuel := 12000, montant_credit := 0, duree_annees := 1, age := 30,
    anciennete_emploi := 0, nb_enfants := 0, charges_existantes := 100, apport := 0 }

section SanityChecks

example : CalculateurCredit.mensualite 1200 0 10 = 10 := by
  norm_num [CalculateurCredit.mensualite]
example : CalculateurCredit.taux_endettement 100 0 = ⊤ := by
  simp [CalculateurCredit.taux_endettement]
example : CalculateurCredit.taux_endettement 100 400 = ((1/4 : ℚ) : ERat) := by
  norm_num [CalculateurCredit.taux_endettement]
example : CalculateurCredit.taux_endettement 300 400 > ((1/2 : ℚ) : ERat) := by
  norm_num [CalculateurCredit.taux_endettement, WithTop.coe_lt_coe]
example : CalculateurCredit.type_credit 80000 = .immobilier := by
  norm_num [CalculateurCredit.type_credit, CONFIG.seuilImmo]
example : CalculateurCredit.capacite_emprunt 1000 0 10 350 = 0 := by
  norm_num [CalculateurCredit.capacite_emprunt, CONFIG.maxDebtRatio]
example :
    (CalculateurCredit.tableau_amortissement 1200 0 1).map
      (·.capital_rembourse) = [1200] := by
  norm_num [CalculateurCredit.tableau_amortissement, CalculateurCredit.tableauAux,
    CalculateurCredit.runMois, CalculateurCredit.mensualite]

end SanityChecks

/-! ## Claims -/

open CalculateurCredit MoteurDecision

/-- C5: for every analyzed application, the business-rule score in the
decision payload lies in [0, 100], whatever combination of penalty or bonus
rules fires: the raw total starting at 100 is clamped before blending. -/
theorem claim_C5 (model : FeatureRow → Option ℚ) (d : Dossier) :
    0 ≤ (analyser model d).score_metier ∧ (analyser model d).score_metier ≤ 100 := by
  constructor
  · simp only [analyser]
    exact le_max_left _ _
  · simp only [analyser]
    exact max_le (by norm_num) (min_le_left _ _)

/-- C1: whenever a hard-refusal condition holds (debt ratio above 0.50, else
disposable income below 400, else age below 18), `analyser` returns decision
REFUSED regardless of the blended score, sets the hard-refusal flag, and
reports exactly the first matching refusal reason; moreover the refusal
reason is present iff the hard-refusal flag is set. -/
theorem claim_C1 (model : FeatureRow → Option ℚ) (d : Dossier) :
    (((analyser model d).details.taux_endettement > ((1/2 : ℚ) : ERat)
        ∨ (analyser model d).details.reste_a_vivre < 400
        ∨ d.age < CONFIG.minAge) →
      (analyser model d).decision = Decision.refuse
        ∧ (analyser model d).refus_auto = true
        ∧ (analyser model d).raison_refus = some
            (if (analyser model d).details.taux_endettement > ((1/2 : ℚ) : ERat) then
              RaisonRefus.tauxEndettementExcessif
            else if (analyser model d).details.reste_a_vivre < 400 then
              RaisonRefus.resteAVivreInsuffisant
            else RaisonRefus.ageMinimumNonAtteint))
    ∧ ((analyser model d).raison_refus.isSome = (analyser model d).refus_auto) := by
  simp only [analyser]
  split_ifs <;> simp_all

/-- Witness for C1: an application with zero income has an infinite debt
ratio, hence is hard-refused with the first reason. -/
theorem claim_C1_witness :
    (analyser modeleFixe dossierSansRevenu).decision = Decision.refuse
      ∧ (analyser modeleFixe dossierSansRevenu).refus_auto = true
      ∧ (analyser modeleFixe dossierSansRevenu).raison_refus = some
          (if (analyser modeleFixe dossierSansRevenu).details.taux_endettement >
              ((1/2 : ℚ) : ERat) then
            RaisonRefus.tauxEndettementExcessif
          else if (analyser modeleFixe dossierSansRevenu).details.reste_a_vivre < 400 then
            RaisonRefus.resteAVivreInsuffisant
          else RaisonRefus.ageMinimumNonAtteint) :=
  (claim_C1 modeleFixe dossierSansRevenu).1
    (Or.inl (by simp [analyser, taux_endettement, dossierSansRevenu]))

/-- C2: when no hard-refusal condition holds, the decision follows the
blended score thresholds: ≥ 70 accepted, ≥ 50 accepted with conditions,
otherwise refused, where the final score is 0.6 × business + 0.4 × ML. -/
theorem claim_C2 (model : FeatureRow → Option ℚ) (d : Dossier)
    (h1 : ¬ (analyser model d).details.taux_endettement > ((1/2 : ℚ) : ERat))
    (h2 : ¬ (analyser model d).details.reste_a_vivre < 400)
    (h3 : ¬ d.age < CONFIG.minAge) :
    (analyser model d).score_final =
        6/10 * (analyser model d).score_metier + 4/10 * (analyser model d).score_ml
      ∧ ((analyser model d).score_final ≥ 70 →
          (analyser model d).decision = Decision.accepte)
      ∧ (50 ≤ (analyser model d).score_final ∧ (analyser model d).score_final < 70 →
          (analyser model d).decision = Decision.accepteSousConditions)
      ∧ ((analyser model d).score_final < 50 →
          (analyser model d).decision = Decision.refuse) := by
  simp only [analyser] at h1 h2 h3 ⊢
  split_ifs <;> (simp_all; try linarith)

/-- Witness for C2: a healthy application (no requested principal, income
12000, charges 200) triggers no hard-refusal condition. -/
theorem claim_C2_witness :
    (analyser modeleFixe dossierSain).score_final =
        6/10 * (analyser modeleFixe dossierSain).score_metier +
          4/10 * (analyser modeleFixe dossierSain).score_ml
      ∧ ((analyser modeleFixe dossierSain).score_final ≥ 70 →
          (analyser modeleFixe dossierSain).decision = Decision.accepte)
      ∧ (50 ≤ (analyser modeleFixe dossierSain).score_final ∧
            (analyser modeleFixe dossierSain).score_final < 70 →
          (analyser modeleFixe dossierSain).decision = Decision.accepteSousConditions)
      ∧ ((analyser modeleFixe dossierSain).score_final < 50 →
          (analyser modeleFixe dossierSain).decision = Decision.refuse) :=
  claim_C2 modeleFixe dossierSain
    (by norm_num [analyser, dossierSain, taux_endettement, mensualite, taux_interet,
      CONFIG.tauxConso, CONFIG.seuilImmo, WithTop.coe_lt_coe])
    (by norm_num [analyser, dossierSain, taux_endettement, mensualite, taux_interet,
      CONFIG.tauxConso, CONFIG.seuilImmo])
    (by norm_num [dossierSain, CONFIG.minAge])

/-- C3: if the classifier call fails on the built feature row, the adapter
returns the neutral probability 1/2, the ML score is exactly 50, and a final
decision is still produced. -/
theorem claim_C3 (model : FeatureRow → Option ℚ) (d : Dossier)
    (h : model (featureRow d (mensualiteDossier d) d.duree_annees) = none) :
    (analyser model d).proba_defaut = 1/2
      ∧ (analyser model d).score_ml = 50
      ∧ ((analyser model d).decision = Decision.refuse
          ∨ (analyser model d).decision = Decision.accepte
          ∨ (analyser model d).decision = Decision.accepteSousConditions) := by
  simp only [mensualiteDossier] at h
  refine ⟨?_, ?_, ?_⟩
  · simp [analyser, score_ml, h]
  · norm_num [analyser, score_ml, h]
  · simp only [analyser]
    split_ifs <;> simp

/-- Witness for C3: the always-failing classifier stub on a concrete
application. -/
theorem claim_C3_witness :
    (analyser modeleEchec dossierSain).proba_defaut = 1/2
      ∧ (analyser modeleEchec dossierSain).score_ml = 50
      ∧ ((analyser modeleEchec dossierSain).decision = Decision.refuse
          ∨ (analyser modeleEchec dossierSain).decision = Decision.accepte
          ∨ (analyser modeleEchec dossierSain).decision = Decision.accepteSousConditions) :=
  claim_C3 modeleEchec dossierSain rfl

/-- C9: the two checks of the age rule are independent and may both fire:
age below 18 contributes −50 with a danger alert and age at end of loan above
75 contributes −15 with a warning alert; an applicant satisfying both gets
the combined −65 delta and both alerts appear in the payload. -/
theorem claim_C9 (model : FeatureRow → Option ℚ) (d : Dossier)
    (h1 : d.age < 18) (h2 : d.age + (d.duree_annees : ℚ) > 75) :
    regle3 d.age (d.age + (d.duree_annees : ℚ)) =
        ⟨-50 + -15, [(Severite.danger, MsgAlerte.ageInsuffisant),
          (Severite.warning, MsgAlerte.ageFinPretEleve)], []⟩
      ∧ (Severite.danger, MsgAlerte.ageInsuffisant) ∈ (analyser model d).alertes
      ∧ (Severite.warning, MsgAlerte.ageFinPretEleve) ∈ (analyser model d).alertes := by
  have hr : regle3 d.age (d.age + (d.duree_annees : ℚ)) =
      ⟨-50 + -15, [(Severite.danger, MsgAlerte.ageInsuffisant),
        (Severite.warning, MsgAlerte.ageFinPretEleve)], []⟩ := by
    simp [regle3, CONFIG.minAge, CONFIG.maxAgeFinPret, h1, h2]
  refine ⟨hr, ?_, ?_⟩
  · simp [analyser, hr]
  · simp [analyser, hr]

/-- Witness for C9: a 10-year-old applicant asking for a 70-year loan. -/
theorem claim_C9_witness :
    regle3 dossierJeune.age (dossierJeune.age + (dossierJeune.duree_annees : ℚ)) =
        ⟨-50 + -15, [(Severite.danger, MsgAlerte.ageInsuffisant),
          (Severite.warning, MsgAlerte.ageFinPretEleve)], []⟩
      ∧ (Severite.danger, MsgAlerte.ageInsuffisant) ∈
          (analyser modeleFixe dossierJeune).alertes
      ∧ (Severite.warning, MsgAlerte.ageFinPretEleve) ∈
          (analyser modeleFixe dossierJeune).alertes :=
  claim_C9 modeleFixe dossierJeune (by norm_num [dossierJeune])
    (by norm_num [dossierJeune])

/-- C10: the feature vector sent to the classifier computes its debt ratio
and disposable income from the loan payment alone, while the debt ratio and
disposable income used by the business rules include existing charges; with
positive income and positive charges the two pairs of values differ. -/
theorem claim_C10 (model : FeatureRow → Option ℚ) (d : Dossier)
    (hrev : 0 < d.revenu_annuel) (hch : 0 < d.charges_existantes) :
    (featureRow d (mensualiteDossier d) d.duree_annees).debtRatioF
        = some (mensualiteDossier d / (d.revenu_annuel / 12))
      ∧ (featureRow d (mensualiteDossier d) d.duree_annees).resteAVivreF
        = d.revenu_annuel / 12 - mensualiteDossier d
      ∧ (analyser model d).details.taux_endettement
        = (((mensualiteDossier d + d.charges_existantes) / (d.revenu_annuel / 12) : ℚ) : ERat)
      ∧ (analyser model d).details.reste_a_vivre
        = d.revenu_annuel / 12 - (mensualiteDossier d + d.charges_existantes)
      ∧ mensualiteDossier d / (d.revenu_annuel / 12)
          ≠ (mensualiteDossier d + d.charges_existantes) / (d.revenu_annuel / 12)
      ∧ d.revenu_annuel / 12 - mensualiteDossier d
          ≠ d.revenu_annuel / 12 - (mensualiteDossier d + d.charges_existantes) := by
  have h12 : (0 : ℚ) < d.revenu_annuel / 12 := by positivity
  refine ⟨?_, ?_, ?_, ?_, ?_, ?_⟩
  · simp [featureRow, hrev]
  · simp [featureRow]
  · simp only [analyser, mensualiteDossier, taux_endettement]
    rw [if_neg (not_le.mpr h12)]
  · simp only [analyser, mensualiteDossier]
  · intro hEq
    have h' := congrArg (· * (d.revenu_annuel / 12)) hEq
    simp only [div_mul_cancel₀ _ (ne_of_gt h12)] at h'
    linarith
  · intro hEq
    linarith

/-- Witness for C10: income 12000 with existing charges 100. -/
theorem claim_C10_witness :
    (featureRow dossierAvecCharges (mensualiteDossier dossierAvecCharges)
        dossierAvecCharges.duree_annees).debtRatioF
        = some (mensualiteDossier dossierAvecCharges /
            (dossierAvecCharges.revenu_annuel / 12))
      ∧ (featureRow dossierAvecCharges (mensualiteDossier dossierAvecCharges)
          dossierAvecCharges.duree_annees).resteAVivreF
        = dossierAvecCharges.revenu_annuel / 12 - mensualiteDossier dossierAvecCharges
      ∧ (analyser modeleFixe dossierAvecCharges).details.taux_endettement
        = (((mensualiteDossier dossierAvecCharges +
              dossierAvecCharges.charges_existantes) /
            (dossierAvecCharges.revenu_annuel / 12) : ℚ) : ERat)
      ∧ (analyser modeleFixe dossierAvecCharges).details.reste_a_vivre
        = dossierAvecCharges.revenu_annuel / 12 -
            (mensualiteDossier dossierAvecCharges +
              dossierAvecCharges.charges_existantes)
      ∧ mensualiteDossier dossierAvecCharges /
            (dossierAvecCharges.revenu_annuel / 12)
          ≠ (mensualiteDossier dossierAvecCharges +
              dossierAvecCharges.charges_existantes) /
            (dossierAvecCharges.revenu_annuel / 12)
      ∧ dossierAvecCharges.revenu_annuel / 12 - mensualiteDossier dossierAvecCharges
          ≠ dossierAvecCharges.revenu_annuel / 12 -
            (mensualiteDossier dossierAvecCharges +
              dossierAvecCharges.charges_existantes) :=
  claim_C10 modeleFixe dossierAvecCharges (by norm_num [dossierAvecCharges])
    (by norm_num [dossierAvecCharges])

/-- C7: degenerate numeric inputs take total branches instead of raising:
non-positive monthly income gives an infinite debt ratio, a zero rate gives
the linear payment `principal / (years × 12)`, and a non-positive affordable
payment gives a zero borrowing capacity. -/
theorem claim_C7 :
    (∀ mensu revenu : ℚ, revenu ≤ 0 →
        CalculateurCredit.taux_endettement mensu revenu = ⊤)
    ∧ (∀ (capital : ℚ) (duree : ℕ),
        CalculateurCredit.mensualite capital 0 duree = capital / ((duree : ℚ) * 12))
    ∧ (∀ (revenu taux : ℚ) (duree : ℕ) (charges : ℚ),
        revenu * CONFIG.maxDebtRatio - charges ≤ 0 →
        CalculateurCredit.capacite_emprunt revenu taux duree charges = 0) := by
  refine ⟨?_, ?_, ?_⟩
  · intro m rv h
    simp [taux_endettement, h]
  · intro c dur
    simp [mensualite]
  · intro rv tx dur ch h
    simp [capacite_emprunt, h]

/-- Witness for C7: concrete degenerate inputs for the three branches. -/
theorem claim_C7_witness :
    CalculateurCredit.taux_endettement 100 0 = ⊤
      ∧ CalculateurCredit.mensualite 1200 0 10 = 1200 / (((10 : ℕ) : ℚ) * 12)
      ∧ CalculateurCredit.capacite_emprunt 1000 0 10 350 = 0 :=
  ⟨claim_C7.1 100 0 le_rfl, claim_C7.2.1 1200 10,
    claim_C7.2.2 1000 0 10 350 (by norm_num [CONFIG.maxDebtRatio])⟩

/-- The monthly payment is positive for a positive principal, non-negative
rate and at least one year of term. -/
theorem mensualite_pos (P r : ℚ) (n : ℕ) (hP : 0 < P) (hr : 0 ≤ r)
    (hn : 1 ≤ n) : 0 < mensualite P r n := by
  have hn12 : (0 : ℚ) < (n : ℚ) * 12 := by
    have : (0 : ℚ) < (n : ℚ) := by exact_mod_cast hn
    linarith
  simp only [mensualite]
  rcases eq_or_lt_of_le hr with h0 | hpos
  · rw [if_pos h0.symm]
    exact div_pos hP hn12
  · rw [if_neg (ne_of_gt hpos)]
    have ht : (0 : ℚ) < r / 12 := by positivity
    have hb : (1 : ℚ) < 1 + r / 12 := by linarith
    have hA : (1 : ℚ) < (1 + r / 12) ^ (n * 12) := one_lt_pow₀ hb (by omega)
    refine div_pos (mul_pos hP (mul_pos ht (by positivity))) (by linarith)

/-- C4: `capacite_emprunt` is the exact algebraic inverse of `mensualite`:
feeding the income `mensualite(P,r,n) / maxDebtRatio` with zero charges back
into it recovers the principal exactly (the rational model makes the
floating-point tolerance an exact equality), including the zero-rate
branch. -/
theorem claim_C4 (P r : ℚ) (n : ℕ) (hP : 0 < P) (hr : 0 ≤ r) (hn : 1 ≤ n) :
    capacite_emprunt (mensualite P r n / CONFIG.maxDebtRatio) r n 0 = P := by
  have hm : 0 < mensualite P r n := mensualite_pos P r n hP hr hn
  have hmax : mensualite P r n / CONFIG.maxDebtRatio * CONFIG.maxDebtRatio - 0
      = mensualite P r n := by
    rw [sub_zero, div_mul_cancel₀]
    norm_num [CONFIG.maxDebtRatio]
  simp only [capacite_emprunt]
  rw [hmax, if_neg (not_le.mpr hm)]
  rcases eq_or_lt_of_le hr with h0 | hpos
  · rw [if_pos h0.symm, ← h0]
    simp only [mensualite, if_pos rfl]
    have hn12 : ((n : ℚ) * 12) ≠ 0 := by
      have : (0 : ℚ) < (n : ℚ) := by exact_mod_cast hn
      positivity
    push_cast
    field_simp
  · rw [if_neg (ne_of_gt hpos)]
    simp only [mensualite, if_neg (ne_of_gt hpos)]
    have ht : (0 : ℚ) < r / 12 := by positivity
    have hb : (1 : ℚ) < 1 + r / 12 := by linarith
    have hA : (1 : ℚ) < (1 + r / 12) ^ (n * 12) := one_lt_pow₀ hb (by omega)
    have hA1 : (1 + r / 12) ^ (n * 12) - 1 ≠ 0 := sub_ne_zero.mpr (ne_of_gt hA)
    have htA : r / 12 * (1 + r / 12) ^ (n * 12) ≠ 0 := by positivity
    rw [div_mul_cancel₀ _ hA1, mul_div_assoc, div_self htA, mul_one]

/-- Witness for C4: round trip at principal 1200, zero rate, 10 years. -/
theorem claim_C4_witness :
    capacite_emprunt (mensualite 1200 0 10 / CONFIG.maxDebtRatio) 0 10 0 = 1200 :=
  claim_C4 1200 0 10 (by norm_num) le_rfl (by norm_num)

/-- The defining identity of the annuity factor: multiplying the sum of the
monthly discount factors by `t (1+t)^nb` gives `(1+t)^nb - 1`. -/
theorem facteurAnnuite_mul (t : ℚ) (ht : 0 < t) (nb : ℕ) :
    facteurAnnuite t nb * (t * (1 + t) ^ nb) = (1 + t) ^ nb - 1 := by
  have h1t : (0 : ℚ) < 1 + t := by linarith
  induction nb with
  | zero => simp [facteurAnnuite]
  | succ k ih =>
    have hu : (1 / (1 + t)) ^ (k + 1) * (1 + t) ^ (k + 1) = 1 := by
      rw [one_div, inv_pow, inv_mul_cancel₀ (by positivity)]
    rw [facteurAnnuite, Finset.sum_range_succ]
    rw [facteurAnnuite] at ih
    linear_combination (1 + t) * ih + t * hu

/-- The annuity factor is positive when there is at least one month. -/
theorem facteurAnnuite_pos (t : ℚ) (ht : 0 < t) (nb : ℕ) (hnb : 1 ≤ nb) :
    0 < facteurAnnuite t nb := by
  have h1t : (0 : ℚ) < 1 + t := by linarith
  refine Finset.sum_pos (fun k _ => by positivity) ?_
  exact ⟨0, Finset.mem_range.mpr (by omega)⟩

/-- For a positive rate the monthly payment is the principal divided by the
annuity factor at the monthly rate over the loan months. -/
theorem mensualite_eq_div_facteur (P r : ℚ) (n : ℕ) (hr : 0 < r) (hn : 1 ≤ n) :
    mensualite P r n = P / facteurAnnuite (r / 12) (n * 12) := by
  have ht : (0 : ℚ) < r / 12 := by positivity
  have hb : (1 : ℚ) < 1 + r / 12 := by linarith
  have hA : (1 : ℚ) < (1 + r / 12) ^ (n * 12) := one_lt_pow₀ hb (by omega)
  have hS := facteurAnnuite_mul (r / 12) ht (n * 12)
  have hSpos := facteurAnnuite_pos (r / 12) ht (n * 12) (by omega)
  simp only [mensualite, if_neg (ne_of_gt hr)]
  rw [eq_div_iff (ne_of_gt hSpos), div_mul_eq_mul_div,
    div_eq_iff (sub_ne_zero.mpr (ne_of_gt hA))]
  linear_combination P * hS

/-- The annuity factor strictly decreases in the monthly rate. -/
theorem facteurAnnuite_lt (t1 t2 : ℚ) (h1 : 0 < t1) (h12 : t1 < t2) (nb : ℕ)
    (hnb : 1 ≤ nb) : facteurAnnuite t2 nb < facteurAnnuite t1 nb := by
  have h1t1 : (0 : ℚ) < 1 + t1 := by linarith
  have h1t2 : (0 : ℚ) < 1 + t2 := by linarith
  refine Finset.sum_lt_sum_of_nonempty ⟨0, Finset.mem_range.mpr (by omega)⟩ ?_
  intro k _
  have hbase : 1 / (1 + t2) < 1 / (1 + t1) :=
    one_div_lt_one_div_of_lt h1t1 (by linarith)
  exact pow_lt_pow_left₀ hbase (by positivity) (Nat.succ_ne_zero k)

/-- C8: the monthly payment is strictly increasing in the principal, and
strictly increasing in the annual rate for positive rates, holding the other
arguments fixed. -/
theorem claim_C8 :
    (∀ (r : ℚ) (n : ℕ) (P1 P2 : ℚ), 0 ≤ r → 1 ≤ n → P1 < P2 →
        CalculateurCredit.mensualite P1 r n < CalculateurCredit.mensualite P2 r n)
    ∧ (∀ (P : ℚ) (n : ℕ) (r1 r2 : ℚ), 0 < P → 1 ≤ n → 0 < r1 → r1 < r2 →
        CalculateurCredit.mensualite P r1 n < CalculateurCredit.mensualite P r2 n) := by
  constructor
  · intro r n P1 P2 hr hn h
    have hn12 : (0 : ℚ) < (n : ℚ) * 12 := by
      have : (0 : ℚ) < (n : ℚ) := by exact_mod_cast hn
      linarith
    rcases eq_or_lt_of_le hr with h0 | hpos
    · rw [← h0]
      simp only [mensualite, if_pos rfl]
      exact div_lt_div_of_pos_right h hn12
    · simp only [mensualite, if_neg (ne_of_gt hpos)]
      have ht : (0 : ℚ) < r / 12 := by positivity
      have hb : (1 : ℚ) < 1 + r / 12 := by linarith
      have hA : (1 : ℚ) < (1 + r / 12) ^ (n * 12) := one_lt_pow₀ hb (by omega)
      have hA1 : (0 : ℚ) < (1 + r / 12) ^ (n * 12) - 1 := by linarith
      have hfac : (0 : ℚ) < r / 12 * (1 + r / 12) ^ (n * 12) := by positivity
      exact div_lt_div_of_pos_right (mul_lt_mul_of_pos_right h hfac) hA1
  · intro P n r1 r2 hP hn hr1 hlt
    have hr2 : 0 < r2 := lt_trans hr1 hlt
    rw [mensualite_eq_div_facteur P r1 n hr1 hn,
      mensualite_eq_div_facteur P r2 n hr2 hn]
    have hS2pos := facteurAnnuite_pos (r2 / 12) (by positivity) (n * 12) (by omega)
    have hSlt := facteurAnnuite_lt (r1 / 12) (r2 / 12) (by positivity)
      (by linarith) (n * 12) (by omega)
    exact div_lt_div_of_pos_left hP hS2pos hSlt

/-- Witness for C8: both monotonicities at concrete inputs. -/
theorem claim_C8_witness :
    CalculateurCredit.mensualite 1000 0 10 < CalculateurCredit.mensualite 2000 0 10
      ∧ CalculateurCredit.mensualite 1000 (1/100) 10 <
          CalculateurCredit.mensualite 1000 (2/100) 10 :=
  ⟨claim_C8.1 0 10 1000 2000 le_rfl (by norm_num) (by norm_num),
    claim_C8.2 1000 10 (1/100) (2/100) (by norm_num) (by norm_num) (by norm_num)
      (by norm_num)⟩

/-- Once the balance is non-positive, the month loop leaves the state
unchanged (the source breaks out of the loop). -/
theorem runMois_of_nonpos (m t : ℚ) (k : ℕ) (s ia cr : ℚ) (hs : s ≤ 0) :
    runMois m t k (s, ia, cr) = (s, ia, cr) := by
  cases k with
  | zero => rfl
  | succ k => simp [runMois, hs]

/-- While the balance stays positive, the month loop follows the pure
recurrence `s ↦ s (1+t) - m`. -/
theorem runMois_fst (m t : ℚ) (k : ℕ) : ∀ s ia cr : ℚ,
    (∀ j, j < k → 0 < soldePure m t j s) →
    (runMois m t k (s, ia, cr)).1 = soldePure m t k s := by
  induction k with
  | zero => intro s ia cr _; rfl
  | succ k ih =>
    intro s ia cr h
    have hs : 0 < s := by
      have := h 0 (Nat.succ_pos k)
      simpa [soldePure] using this
    have hrw : runMois m t (k + 1) (s, ia, cr)
        = runMois m t k (s - (m - s * t), ia + s * t, cr + (m - s * t)) := by
      simp [runMois, not_le.mpr hs]
    rw [hrw, show s - (m - s * t) = s * (1 + t) - m from by ring]
    simp only [soldePure]
    refine ih _ _ _ (fun j hj => ?_)
    have := h (j + 1) (by omega)
    simpa [soldePure] using this

/-- The principal repaid accumulated by the month loop equals the drop of the
balance. -/
theorem runMois_cr (m t : ℚ) (k : ℕ) : ∀ s ia cr : ℚ,
    (runMois m t k (s, ia, cr)).2.2
      = cr + (s - (runMois m t k (s, ia, cr)).1) := by
  induction k with
  | zero => intro s ia cr; simp [runMois]
  | succ k ih =>
    intro s ia cr
    by_cases hs : s ≤ 0
    · rw [runMois_of_nonpos m t (k + 1) s ia cr hs]
      simp
    · have hrw : runMois m t (k + 1) (s, ia, cr)
          = runMois m t k (s - (m - s * t), ia + s * t, cr + (m - s * t)) := by
        simp [runMois, hs]
      rw [hrw, ih]
      ring

/-- The principal repaid summed over the year rows equals the total drop of
the balance across the years. -/
theorem tableauAux_sum (m t : ℚ) (k : ℕ) : ∀ (a : ℕ) (s : ℚ),
    ((tableauAux m t k a s).map (·.capital_rembourse)).sum
      = s - soldeApresAnnees m t k s := by
  induction k with
  | zero => intro a s; simp [tableauAux, soldeApresAnnees]
  | succ k ih =>
    intro a s
    simp only [tableauAux, List.map_cons, List.sum_cons, soldeApresAnnees]
    rw [ih, runMois_cr m t 12]
    ring

/-- Every stored remaining balance is non-negative (it is clamped with
`max 0`). -/
theorem tableauAux_nonneg (m t : ℚ) (k : ℕ) : ∀ (a : ℕ) (s : ℚ),
    ∀ row ∈ tableauAux m t k a s, 0 ≤ row.solde_restant := by
  induction k with
  | zero => intro a s row h; simp [tableauAux] at h
  | succ k ih =>
    intro a s row h
    simp only [tableauAux, List.mem_cons] at h
    rcases h with h | h
    · subst h; exact le_max_left _ _
    · exact ih _ _ row h

/-- The optional last element of a cons is the one of the tail when the tail
is non-empty. -/
theorem getLast_cons_of_ne_nil {α : Type} (x : α) (l : List α) (h : l ≠ []) :
    (x :: l).getLast? = l.getLast? := by
  cases l with
  | nil => exact absurd rfl h
  | cons b l' => exact List.getLast?_cons_cons

/-- The last row of the year loop stores the clamped final balance. -/
theorem tableauAux_getLast (m t : ℚ) (k : ℕ) : ∀ (a : ℕ) (s : ℚ), 1 ≤ k →
    ∃ row, (tableauAux m t k a s).getLast? = some row
      ∧ row.solde_restant = max 0 (soldeApresAnnees m t k s) := by
  induction k with
  | zero => intro a s h; omega
  | succ k ih =>
    intro a s _
    rcases Nat.eq_zero_or_pos k with h0 | hk
    · subst h0
      refine ⟨⟨a, (runMois m t 12 (s, 0, 0)).2.2, (runMois m t 12 (s, 0, 0)).2.1,
        max 0 (runMois m t 12 (s, 0, 0)).1⟩, ?_, ?_⟩
      · simp [tableauAux]
      · simp [soldeApresAnnees]
    · obtain ⟨row, hrow, hsolde⟩ := ih (a + 1) ((runMois m t 12 (s, 0, 0)).1) hk
      have hne : tableauAux m t k (a + 1) ((runMois m t 12 (s, 0, 0)).1) ≠ [] := by
        intro hnil
        rw [hnil] at hrow
        simp at hrow
      refine ⟨row, ?_, ?_⟩
      · simp only [tableauAux]
        rw [getLast_cons_of_ne_nil _ _ hne]
        exact hrow
      · rw [hsolde]
        simp only [soldeApresAnnees]

/-- Composing the pure balance recurrence. -/
theorem soldePure_add (m t : ℚ) (i j : ℕ) : ∀ s : ℚ,
    soldePure m t (i + j) s = soldePure m t j (soldePure m t i s) := by
  induction i with
  | zero => intro s; simp [soldePure]
  | succ i ih =>
    intro s
    rw [show i + 1 + j = (i + j) + 1 from by omega]
    simp only [soldePure]
    exact ih (s * (1 + t) - m)

/-- Closed form of the pure balance recurrence: compound growth of the
starting balance minus the compounded payments. -/
theorem soldePure_closed (m t : ℚ) (k : ℕ) : ∀ s : ℚ,
    soldePure m t k s
      = s * (1 + t) ^ k - m * (Finset.range k).sum (fun i => (1 + t) ^ i) := by
  induction k with
  | zero => intro s; simp [soldePure]
  | succ k ih =>
    intro s
    simp only [soldePure]
    rw [ih, Finset.sum_range_succ]
    ring

/-- With the payment produced by `mensualite`, the pure balance stays
positive strictly before the last month and is exactly zero after
`n × 12` months. -/
theorem soldePure_mensualite (P r : ℚ) (n : ℕ) (hP : 0 < P) (hr : 0 ≤ r)
    (hn : 1 ≤ n) :
    (∀ j, j < n * 12 → 0 < soldePure (mensualite P r n) (r / 12) j P)
    ∧ soldePure (mensualite P r n) (r / 12) (n * 12) P = 0 := by
  rcases eq_or_lt_of_le hr with h0 | hpos
  · obtain rfl : r = 0 := h0.symm
    have hm : mensualite P 0 n = P / ((n : ℚ) * 12) := by simp [mensualite]
    have hnq : (0 : ℚ) < (n : ℚ) := by exact_mod_cast hn
    constructor
    · intro j hj
      rw [soldePure_closed, hm]
      simp only [zero_div, add_zero, one_pow, Finset.sum_const, Finset.card_range,
        nsmul_eq_mul, mul_one]
      have hjq : (j : ℚ) < (n : ℚ) * 12 := by exact_mod_cast hj
      have h1 : P / ((n : ℚ) * 12) * (j : ℚ) < P := by
        rw [div_mul_eq_mul_div, div_lt_iff₀ (by positivity)]
        exact mul_lt_mul_of_pos_left hjq hP
      linarith
    · rw [soldePure_closed, hm]
      simp only [zero_div, add_zero, one_pow, Finset.sum_const, Finset.card_range,
        nsmul_eq_mul, mul_one]
      push_cast
      field_simp
  · have ht : (0 : ℚ) < r / 12 := by positivity
    have htne : r / 12 ≠ 0 := ne_of_gt ht
    have hb : (1 : ℚ) < 1 + r / 12 := by linarith
    have hb0 : (1 : ℚ) + r / 12 ≠ 1 := by linarith
    have hA : (1 : ℚ) < (1 + r / 12) ^ (n * 12) := one_lt_pow₀ hb (by omega)
    have hA1 : (1 + r / 12) ^ (n * 12) - 1 ≠ 0 := sub_ne_zero.mpr (ne_of_gt hA)
    have hstep : ∀ (j : ℕ) (s : ℚ),
        soldePure (mensualite P r n) (r / 12) (j + 1) s
          = soldePure (mensualite P r n) (r / 12) j s * (1 + r / 12)
            - mensualite P r n := by
      intro j s
      rw [soldePure_add (mensualite P r n) (r / 12) j 1 s]
      simp [soldePure]
    have key : ∀ j : ℕ, soldePure (mensualite P r n) (r / 12) j P
        = P * ((1 + r / 12) ^ (n * 12) - (1 + r / 12) ^ j)
          / ((1 + r / 12) ^ (n * 12) - 1) := by
      intro j
      induction j with
      | zero =>
        simp only [soldePure, pow_zero]
        rw [mul_div_assoc, div_self hA1, mul_one]
      | succ j ih =>
        rw [hstep j P, ih]
        simp only [mensualite, if_neg (ne_of_gt hpos)]
        rw [div_mul_eq_mul_div, div_sub_div_same]
        congr 1
        ring
    constructor
    · intro j hj
      rw [key j]
      have hAj : (1 + r / 12) ^ j < (1 + r / 12) ^ (n * 12) :=
        pow_lt_pow_right₀ hb hj
      exact div_pos (mul_pos hP (by linarith)) (by linarith)
    · rw [key (n * 12)]
      simp

/-- While the pure balance stays positive, the year loop follows the pure
recurrence for twelve months per year. -/
theorem soldeApres_eq (m t : ℚ) (k : ℕ) : ∀ s : ℚ,
    (∀ j, j < k * 12 → 0 < soldePure m t j s) →
    soldeApresAnnees m t k s = soldePure m t (k * 12) s := by
  induction k with
  | zero => intro s _; rfl
  | succ k ih =>
    intro s h
    have h12 : ∀ j, j < 12 → 0 < soldePure m t j s := fun j hj => h j (by omega)
    have hst : (runMois m t 12 (s, 0, 0)).1 = soldePure m t 12 s :=
      runMois_fst m t 12 s 0 0 h12
    simp only [soldeApresAnnees]
    rw [hst, show (k + 1) * 12 = 12 + k * 12 from by ring,
      soldePure_add m t 12 (k * 12) s]
    refine ih (soldePure m t 12 s) (fun j hj => ?_)
    rw [← soldePure_add]
    exact h (12 + j) (by omega)

/-- C6: for every positive principal, non-negative rate and term of at least
one year, the principal repaid summed over all rows of the amortization
table equals the principal exactly (the rational model sharpens the
floating-point tolerance to equality), the remaining balance of the last row
is 0, every stored remaining balance is non-negative, and once the balance
is non-positive the remaining months of a year contribute nothing. -/
theorem claim_C6 (P r : ℚ) (n : ℕ) (hP : 0 < P) (hr : 0 ≤ r) (hn : 1 ≤ n) :
    ((tableau_amortissement P r n).map (·.capital_rembourse)).sum = P
      ∧ (∀ row ∈ tableau_amortissement P r n, 0 ≤ row.solde_restant)
      ∧ (∀ row, (tableau_amortissement P r n).getLast? = some row →
          row.solde_restant = 0)
      ∧ (∀ (k : ℕ) (s ia cr : ℚ), s ≤ 0 →
          runMois (mensualite P r n) (r / 12) k (s, ia, cr) = (s, ia, cr)) := by
  obtain ⟨hposj, hzero⟩ := soldePure_mensualite P r n hP hr hn
  have htab : tableau_amortissement P r n
      = tableauAux (mensualite P r n) (r / 12) n 1 P := rfl
  have hfinal : soldeApresAnnees (mensualite P r n) (r / 12) n P = 0 := by
    rw [soldeApres_eq (mensualite P r n) (r / 12) n P
      (fun j hj => hposj j (by omega))]
    exact hzero
  refine ⟨?_, ?_, ?_, ?_⟩
  · rw [htab, tableauAux_sum, hfinal, sub_zero]
  · intro row h
    rw [htab] at h
    exact tableauAux_nonneg _ _ n 1 P row h
  · intro row h
    obtain ⟨row', hrow', hsolde'⟩ :=
      tableauAux_getLast (mensualite P r n) (r / 12) n 1 P hn
    rw [htab, hrow'] at h
    obtain rfl : row' = row := by injection h
    rw [hsolde', hfinal]
    simp
  · intro k s ia cr hs
    exact runMois_of_nonpos _ _ k s ia cr hs

/-- Witness for C6: principal 1200, zero rate, ten years. -/
theorem claim_C6_witness :
    ((tableau_amortissement 1200 0 10).map (·.capital_rembourse)).sum = 1200
      ∧ (∀ row ∈ tableau_amortissement 1200 0 10, 0 ≤ row.solde_restant)
      ∧ (∀ row, (tableau_amortissement 1200 0 10).getLast? = some row →
          row.solde_restant = 0)
      ∧ (∀ (k : ℕ) (s ia cr : ℚ), s ≤ 0 →
          runMois (mensualite 1200 0 10) (0 / 12) k (s, ia, cr) = (s, ia, cr)) :=
  claim_C6 1200 0 10 (by norm_num) le_rfl (by norm_num)
